import Mathlib

/-!
# Verification of the semantic-checking pass (`exprcheck.py`)

This file gives a shallow embedding of the checking pass
`CheckProgramVisitor` of `src/exprcheck.py` and proves/refutes the
frozen claims about it.

Modelling conventions:
* Python attributes that may be absent are `Option`-valued.  The
  `check_type` attribute of an AST node may be absent (never assigned)
  or present holding either a real type or the Python value `None`;
  it is therefore modelled as `Option (Option ExprType)`
  (`none` = attribute absent, `some none` = attribute set to `None`,
  `some (some t)` = attribute set to type `t`).
* Python exceptions (`AttributeError`, `NameError`) that the checker can
  raise are modelled by the `PyErr` type: every visiting function
  returns its updated state together with `Except PyErr result`, so a
  raised exception aborts the traversal but keeps the errors reported
  so far (as the real error sink would).
* The error sink `errors.error` (module `errors.py`, outside `src/`) is
  modelled from the spec: it "accepts (line, message) pairs; does not
  abort traversal", so the state simply accumulates a list of pairs.
-/

/-- The kind-tagged runtime value carried by a `Literal` node.  The
`other` constructor stands for a Python value of any class outside
`int`/`float`/`str`/`bool` (its argument is the class name, used only
for the diagnostic text). Floats are modelled as rationals; only their
kind and (in)equality matter to the checker. -/
inductive PyVal : Type where
  | int : Int → PyVal
  | float : Rat → PyVal
  | str : String → PyVal
  | bool : Bool → PyVal
  | other : String → PyVal
deriving DecidableEq, Repr

/-- Modelled from the spec (§3, §4.1): `exprtype.py` is not under
`src/`.  A `Type` is "an immutable value object identified by name"
with "a set of supported unary operators, a set of supported binary
operators, a set of supported relational operators, a default value".
Equality is name/identity equality; structural equality of these
records coincides with it because the four instances differ in name. -/
structure ExprType : Type where
  typename : String
  unary_ops : List String
  binary_ops : List String
  rel_ops : List String
  defaultValue : PyVal
deriving DecidableEq, Repr

/-- Modelled from the spec (§4.1): int supports unary +,-; binary
+,-,*,/; default 0.  The relational-operator set is "(language-defined)"
in the spec; the standard comparison set is used — no theorem below
depends on its contents. -/
def IntType : ExprType :=
  ⟨"int", ["+", "-"], ["+", "-", "*", "/"],
   ["<", "<=", ">", ">=", "==", "!="], .int 0⟩

/-- Modelled from the spec (§4.1): float supports unary +,-; binary
+,-,*,/; default 0.0. -/
def FloatType : ExprType :=
  ⟨"float", ["+", "-"], ["+", "-", "*", "/"],
   ["<", "<=", ">", ">=", "==", "!="], .float 0⟩

/-- Modelled from the spec (§4.1): string supports no unary ops, binary
+ only; default "". -/
def StringType : ExprType :=
  ⟨"string", [], ["+"], ["==", "!="], .str ""⟩

/-- Modelled from the spec (§4.1): bool supports no unary and no binary
ops; default false. -/
def BoolType : ExprType :=
  ⟨"bool", [], [], ["==", "!="], .bool false⟩

/-- `typemap` of `CheckProgramVisitor.__init__`: the fixed
value-kind → type map `{int: IntType, float: FloatType, str: StringType,
bool: BoolType}`; `dict.get` returns `None` for any other class. -/
def typemap : PyVal → Option ExprType
  | .int _ => some IntType
  | .float _ => some FloatType
  | .str _ => some StringType
  | .bool _ => some BoolType
  | .other _ => none

/-- Rendering of a Python class object, as `"{}".format(type(v))`
produces it in the "Using unrecognized type" message. -/
def pyTypeRepr : PyVal → String
  | .int _ => "<class \x27int\x27>"
  | .float _ => "<class \x27float\x27>"
  | .str _ => "<class \x27str\x27>"
  | .bool _ => "<class \x27bool\x27>"
  | .other s => "<class \x27" ++ s ++ "\x27>"

/-- Single-quoting used by several diagnostic format strings. -/
def pyq (s : String) : String := "\x27" ++ s ++ "\x27"

/-- `"{}".format` of a `check_type` attribute value, which is either an
`ExprType` (rendered by name, modelled from the spec — `exprtype.py` is
not under `src/`) or Python `None`. -/
def fmtCT : Option ExprType → String
  | some t => t.typename
  | none => "None"

/-- Exceptions the checker can actually raise: attribute access on an
object lacking the attribute (or on `None`), and the reference to the
unbound local `valtype` in `visit_LoadLocation`. -/
inductive PyErr : Type where
  | attributeError : String → PyErr
  | nameError : String → PyErr
deriving DecidableEq, Repr

/-- `Location` node (`exprast`): an identifier used as an assignment
target.  `check_type` is the optionally-present attribute. -/
structure Location : Type where
  lineno : Nat
  name : String
  check_type : Option (Option ExprType) := none
deriving DecidableEq, Repr

/-- Expression nodes of the AST (`exprast`): `Literal`, `Unaryop`,
`Binop`, `Relop` and `LoadLocation` (which wraps a `Location`).  Each
constructor carries the node's `lineno` and its optionally-present
`check_type` attribute (last argument). -/
inductive Expr : Type where
  | literal : Nat → PyVal → Option (Option ExprType) → Expr
  | unaryop : Nat → String → Expr → Option (Option ExprType) → Expr
  | binop : Nat → String → Expr → Expr → Option (Option ExprType) → Expr
  | relop : Nat → String → Expr → Expr → Option (Option ExprType) → Expr
  | loadLocation : Nat → Location → Option (Option ExprType) → Expr
deriving DecidableEq, Repr

/-- The `check_type` attribute of an expression node. -/
def Expr.check_type : Expr → Option (Option ExprType)
  | .literal _ _ ct => ct
  | .unaryop _ _ _ ct => ct
  | .binop _ _ _ _ ct => ct
  | .relop _ _ _ _ ct => ct
  | .loadLocation _ _ ct => ct

/-- The `lineno` attribute of an expression node. -/
def Expr.lineno : Expr → Nat
  | .literal ln _ _ => ln
  | .unaryop ln _ _ _ => ln
  | .binop ln _ _ _ _ => ln
  | .relop ln _ _ _ _ => ln
  | .loadLocation ln _ _ => ln

/-- `Typename` node: the declared type name in a variable declaration. -/
structure Typename : Type where
  lineno : Nat
  name : String
  check_type : Option (Option ExprType) := none
deriving DecidableEq, Repr

/-- `VarDeclaration` node: `var name typename [= expr];`.  `expr` is
`none` when the declaration has no initializer (Python `None`). -/
structure VarDeclaration : Type where
  lineno : Nat
  name : String
  typename : Typename
  expr : Option Expr := none
  check_type : Option (Option ExprType) := none
deriving DecidableEq, Repr

/-- `ConstDeclaration` node: `const name = expr;`. -/
structure ConstDeclaration : Type where
  lineno : Nat
  name : String
  expr : Expr
  check_type : Option (Option ExprType) := none
deriving DecidableEq, Repr

/-- A symbol-table entry: the checker binds names to `ExprType`
objects (the pre-seeded builtin type names), to declaration nodes, or —
in `visit_Program` — to the expression node of an assignment. -/
inductive Entry : Type where
  | ty : ExprType → Entry
  | var : VarDeclaration → Entry
  | const : ConstDeclaration → Entry
  | expr : Expr → Entry
deriving DecidableEq, Repr

/-- The `SymbolTable` (a Python `dict` subclass).  Modelled as an
association list where `add` prepends: `lookup` finds the most recent
binding, which matches `dict` overwrite semantics. -/
def SymbolTable : Type := List (String × Entry)

instance : DecidableEq SymbolTable := by
  unfold SymbolTable
  infer_instance

instance : Repr SymbolTable := by
  unfold SymbolTable
  infer_instance

/-- `SymbolTable.add`: `self[name] = value`. -/
def SymbolTable.add (tab : SymbolTable) (name : String) (value : Entry) :
    SymbolTable :=
  (name, value) :: tab

/-- `SymbolTable.lookup`: `self.get(name, None)` — never raises. -/
def SymbolTable.lookup (tab : SymbolTable) (name : String) : Option Entry :=
  (List.find? (fun p => p.1 = name) tab).map (·.2)

/-- Python attribute access `sym.check_type` on a symbol-table entry.
`ExprType` objects carry no `check_type` attribute (modelled from the
spec §3: a Type's attributes are its operator sets and default value),
and a node whose attribute was never assigned raises `AttributeError`
as well. -/
def Entry.getCheckType : Entry → Except PyErr (Option ExprType)
  | .ty _ => .error (.attributeError "check_type")
  | .var d =>
      match d.check_type with
      | none => .error (.attributeError "check_type")
      | some v => .ok v
  | .const d =>
      match d.check_type with
      | none => .error (.attributeError "check_type")
      | some v => .ok v
  | .expr e =>
      match e.check_type with
      | none => .error (.attributeError "check_type")
      | some v => .ok v

/-- The mutable state of one checking pass: the visitor's symbol table
and the diagnostics accumulated by the error sink (modelled from the
spec §6: the sink "accepts (line_number, message) pairs" and never
aborts the traversal). -/
structure CheckerState : Type where
  symtab : SymbolTable
  errors : List (Nat × String)
deriving DecidableEq, Repr

/-- `error(lineno, msg)`: append one diagnostic to the sink. -/
def CheckerState.addError (st : CheckerState) (ln : Nat) (msg : String) :
    CheckerState :=
  { st with errors := st.errors ++ [(ln, msg)] }

/-- The pre-seeded symbol table of `CheckProgramVisitor.__init__`. -/
def initSymtab : SymbolTable :=
  [("int", .ty IntType), ("float", .ty FloatType),
   ("string", .ty StringType), ("bool", .ty BoolType)]

/-- The state of a freshly constructed visitor with an empty sink. -/
def initState : CheckerState := ⟨initSymtab, []⟩

/-- `CheckProgramVisitor.check_type_unary`.  Returns the value the
Python function returns (`None` when the operand carries no
`check_type` attribute).  When the operand's attribute holds `None`,
`val.check_type.unary_ops` raises `AttributeError`. -/
def check_type_unary (ln : Nat) (op : String) (val : Expr)
    (st : CheckerState) : CheckerState × Except PyErr (Option ExprType) :=
  match val.check_type with
  | none => (st, .ok none)
  | some none => (st, .error (.attributeError "unary_ops"))
  | some (some t) =>
      let st :=
        if op ∈ t.unary_ops then st
        else st.addError ln ("Unary operator " ++ op ++ " not supported")
      (st, .ok (some t))

/-- `CheckProgramVisitor.check_type_binary`, transcribed: if either
operand lacks the attribute the function returns `None`; on differing
attribute values it reports the LHS/RHS mismatch and returns the left
value; otherwise it tests the operator against each side's
`binary_ops` in turn (the second test overwriting `errside`), reports
at most one error, and returns the left value.  Both operands holding
`None` raises `AttributeError` at `left.check_type.binary_ops`. -/
def check_type_binary (ln : Nat) (op : String) (l r : Expr)
    (st : CheckerState) : CheckerState × Except PyErr (Option ExprType) :=
  match l.check_type, r.check_type with
  | some a, some b =>
      if a ≠ b then
        (st.addError ln
          ("Binary operator " ++ op ++ " does not have matching LHS/RHS types"),
         .ok a)
      else
        match a, b with
        | some tl, some tr =>
            let errside : Option String :=
              if op ∈ tl.binary_ops then none else some "LHS"
            let errside : Option String :=
              if op ∈ tr.binary_ops then errside else some "RHS"
            let st :=
              match errside with
              | some s =>
                  st.addError ln
                    ("Binary operator " ++ op ++ " not supported on " ++ s ++
                     " of expression")
              | none => st
            (st, .ok (some tl))
        | _, _ => (st, .error (.attributeError "binary_ops"))
  | _, _ => (st, .ok none)

/-- `CheckProgramVisitor.check_type_rel`: same shape as
`check_type_binary` but over `rel_ops`, and the well-typed branch
returns `BoolType` while the mismatch branch returns the left value. -/
def check_type_rel (ln : Nat) (op : String) (l r : Expr)
    (st : CheckerState) : CheckerState × Except PyErr (Option ExprType) :=
  match l.check_type, r.check_type with
  | some a, some b =>
      if a ≠ b then
        (st.addError ln
          ("Relational operator " ++ op ++
           " does not have matching LHS/RHS types"),
         .ok a)
      else
        match a, b with
        | some tl, some tr =>
            let errside : Option String :=
              if op ∈ tl.rel_ops then none else some "LHS"
            let errside : Option String :=
              if op ∈ tr.rel_ops then errside else some "RHS"
            let st :=
              match errside with
              | some s =>
                  st.addError ln
                    ("Relational operator " ++ op ++ " not supported on " ++ s ++
                     " of expression")
              | none => st
            (st, .ok (some BoolType))
        | _, _ => (st, .error (.attributeError "rel_ops"))
  | _, _ => (st, .ok none)

/-- The expression-visiting dispatch: `visit_Literal`, `visit_Unaryop`,
`visit_Binop`, `visit_Relop` and `visit_LoadLocation`, each returning
the node as mutated in place by the Python code.  In
`visit_LoadLocation`, when the entry's `check_type` attribute holds
`None`, evaluating the message `"Using unrecognized type
{}".format(valtype)` references the unbound local `valtype` and raises
`NameError` before the sink is called. -/
def visitExpr : Expr → CheckerState → CheckerState × Except PyErr Expr
  | .literal ln v _, st =>
      -- visit_Literal: always assigns node.check_type (possibly None)
      let ct := typemap v
      let st :=
        if ct = none then
          st.addError ln ("Using unrecognized type " ++ pyTypeRepr v)
        else st
      (st, .ok (.literal ln v (some ct)))
  | .unaryop ln op e _, st =>
      match visitExpr e st with
      | (st, .error err) => (st, .error err)
      | (st, .ok e') =>
          match check_type_unary ln op e' st with
          | (st, .error err) => (st, .error err)
          | (st, .ok ct) => (st, .ok (.unaryop ln op e' (some ct)))
  | .binop ln op l r _, st =>
      match visitExpr l st with
      | (st, .error err) => (st, .error err)
      | (st, .ok l') =>
          match visitExpr r st with
          | (st, .error err) => (st, .error err)
          | (st, .ok r') =>
              match check_type_binary ln op l' r' st with
              | (st, .error err) => (st, .error err)
              | (st, .ok ct) => (st, .ok (.binop ln op l' r' (some ct)))
  | .relop ln op l r _, st =>
      match visitExpr l st with
      | (st, .error err) => (st, .error err)
      | (st, .ok l') =>
          match visitExpr r st with
          | (st, .error err) => (st, .error err)
          | (st, .ok r') =>
              match check_type_rel ln op l' r' st with
              | (st, .error err) => (st, .error err)
              | (st, .ok ct) => (st, .ok (.relop ln op l' r' (some ct)))
  | .loadLocation ln loc ct₀, st =>
      match st.symtab.lookup loc.name with
      | none =>
          (st.addError ln ("name " ++ pyq loc.name ++ " not found"),
           .ok (.loadLocation ln loc ct₀))
      | some (.ty t) =>
          (st.addError ln
            ("cannot use " ++ t.typename ++
             " outside of variable declarations"),
           .ok (.loadLocation ln loc ct₀))
      | some sym =>
          match sym.getCheckType with
          | .error err => (st, .error err)
          | .ok none => (st, .error (.nameError "valtype"))
          | .ok (some t) => (st, .ok (.loadLocation ln loc (some (some t))))

/-- `CheckProgramVisitor.visit_Location`: report when the name is
absent, then unconditionally execute `node.check_type =
sym.check_type` — when `sym` is `None` that attribute access raises
`AttributeError`. -/
def visit_Location (node : Location) (st : CheckerState) :
    CheckerState × Except PyErr Location :=
  match st.symtab.lookup node.name with
  | none =>
      let st := st.addError node.lineno
        ("name " ++ pyq node.name ++ " not found")
      (st, .error (.attributeError "check_type"))
  | some sym =>
      match sym.getCheckType with
      | .error err => (st, .error err)
      | .ok v => (st, .ok { node with check_type := some v })

/-- `CheckProgramVisitor.visit_Typename`: the name must resolve to an
`ExprType`; otherwise report and leave the node untyped.  Never
raises. -/
def visit_Typename (node : Typename) (st : CheckerState) :
    CheckerState × Typename :=
  match st.symtab.lookup node.name with
  | some (.ty t) => (st, { node with check_type := some (some t) })
  | _ =>
      (st.addError node.lineno (node.name ++ " is not a valid type"), node)

/-- `CheckProgramVisitor.visit_ConstDeclaration`.  The node is added to
the table before its initializer is visited (the Python table holds
the very node object being mutated); the final re-`add` models that
the later mutations of the node are visible through the table. -/
def visit_ConstDeclaration (node : ConstDeclaration) (st : CheckerState) :
    CheckerState × Except PyErr ConstDeclaration :=
  let st :=
    if st.symtab.lookup node.name ≠ none then
      st.addError node.lineno
        ("Attempted to redefine const " ++ pyq node.name ++ ", not allowed")
    else st
  let st := { st with symtab := st.symtab.add node.name (.const node) }
  match visitExpr node.expr st with
  | (st, .error err) => (st, .error err)
  | (st, .ok e') =>
      match e'.check_type with
      | none => (st, .error (.attributeError "check_type"))
      | some v =>
          let node' := { node with expr := e', check_type := some v }
          ({ st with symtab := st.symtab.add node.name (.const node') },
           .ok node')

/-- `CheckProgramVisitor.visit_VarDeclaration`.  On redefinition the
method returns at once (node and table untouched).  Otherwise the node
is bound, the typename visited and its type adopted when present, the
initializer visited when present (`NodeVisitor.visit(None)` is a no-op;
modelled from the spec §4.3 "Visit the initializer expression if
present" — `exprast.py` is not under `src/`), and a missing initializer
is replaced by `Literal(default)` carrying the declared type.  The
synthesized literal is constructed without a source line; line 0 stands
for that.  Re-`add`s model the table aliasing the mutated node. -/
def visit_VarDeclaration (node : VarDeclaration) (st : CheckerState) :
    CheckerState × Except PyErr VarDeclaration :=
  if st.symtab.lookup node.name ≠ none then
    (st.addError node.lineno
      ("Attempted to redefine var " ++ pyq node.name ++ ", not allowed"),
     .ok node)
  else
    let st := { st with symtab := st.symtab.add node.name (.var node) }
    let (st, tn') := visit_Typename node.typename st
    let node₁ :=
      match tn'.check_type with
      | some v => { node with typename := tn', check_type := some v }
      | none => { node with typename := tn' }
    let st := { st with symtab := st.symtab.add node.name (.var node₁) }
    match node₁.expr with
    | some e =>
        match visitExpr e st with
        | (st, .error err) => (st, .error err)
        | (st, .ok e') =>
            let node₂ := { node₁ with expr := some e' }
            ({ st with symtab := st.symtab.add node.name (.var node₂) },
             .ok node₂)
    | none =>
        match node₁.check_type with
        | none => (st, .error (.attributeError "check_type"))
        | some none => (st, .error (.attributeError "defaultValue"))
        | some (some t) =>
            let lit : Expr := .literal 0 t.defaultValue (some (some t))
            let node₂ := { node₁ with expr := some lit }
            ({ st with symtab := st.symtab.add node.name (.var node₂) },
             .ok node₂)

/-- `CheckProgramVisitor.visit_AssignmentStatement` step 3: compare the
target `Location`'s attached type against the source's when both are
present. -/
def assignStep3 (ln : Nat) (loc : Location) (e' : Expr)
    (st : CheckerState) : CheckerState :=
  match loc.check_type, e'.check_type with
  | some dv, some vv =>
      if dv ≠ vv then
        st.addError ln ("Cannot assign " ++ fmtCT vv ++ " to " ++ fmtCT dv)
      else st
  | _, _ => st

/-- `CheckProgramVisitor.visit_AssignmentStatement`: look the target
name up (reporting when absent, then continuing), visit the source,
then take the variable-declaration branch, the constant branch, or
step 3.  Note the method never visits `node.location`. -/
def visit_AssignmentStatement (ln : Nat) (loc : Location) (e : Expr)
    (st : CheckerState) : CheckerState × Except PyErr (Location × Expr) :=
  let sym := st.symtab.lookup loc.name
  let st :=
    if sym = none then
      st.addError ln ("name " ++ pyq loc.name ++ " not defined")
    else st
  match visitExpr e st with
  | (st, .error err) => (st, .error err)
  | (st, .ok e') =>
      match sym with
      | some (.var d) =>
          match d.check_type, e'.check_type with
          | some dv, some vv =>
              if dv ≠ vv then
                (st.addError ln
                  ("Cannot assign " ++ fmtCT vv ++ " to " ++ fmtCT dv),
                 .ok (loc, e'))
              else (assignStep3 ln loc e' st, .ok (loc, e'))
          | _, _ => (assignStep3 ln loc e' st, .ok (loc, e'))
      | some (.const c) =>
          (st.addError ln ("Cannot assign to constant " ++ c.name),
           .ok (loc, e'))
      | _ => (assignStep3 ln loc e' st, .ok (loc, e'))

/-- Top-level statements of a program. -/
inductive Statement : Type where
  | assign : Nat → Location → Expr → Statement
  | varDecl : VarDeclaration → Statement
  | constDecl : ConstDeclaration → Statement
deriving DecidableEq, Repr

/-- Dispatch of `self.visit(statement)` over the statement kinds. -/
def visitStatement : Statement → CheckerState →
    CheckerState × Except PyErr Statement
  | .assign ln loc e, st =>
      match visit_AssignmentStatement ln loc e st with
      | (st, .error err) => (st, .error err)
      | (st, .ok (loc', e')) => (st, .ok (.assign ln loc' e'))
  | .varDecl d, st =>
      match visit_VarDeclaration d st with
      | (st, .error err) => (st, .error err)
      | (st, .ok d') => (st, .ok (.varDecl d'))
  | .constDecl d, st =>
      match visit_ConstDeclaration d st with
      | (st, .error err) => (st, .error err)
      | (st, .ok d') => (st, .ok (.constDecl d'))

/-- `CheckProgramVisitor.visit_Program`: visit the statements in order
and, after each `AssignmentStatement`, bind the target name to the
statement's (visited) source expression node. -/
def visit_Program : List Statement → CheckerState →
    CheckerState × Except PyErr (List Statement)
  | [], st => (st, .ok [])
  | s :: rest, st =>
      match visitStatement s st with
      | (st, .error err) => (st, .error err)
      | (st, .ok s') =>
          let st :=
            match s' with
            | .assign _ loc' e' =>
                { st with symtab := st.symtab.add loc'.name (.expr e') }
            | _ => st
          match visit_Program rest st with
          | (st, .error err) => (st, .error err)
          | (st, .ok rest') => (st, .ok (s' :: rest'))

/-- `check_program`: run a fresh visitor over the program. -/
def check_program (prog : List Statement) :
    CheckerState × Except PyErr (List Statement) :=
  visit_Program prog initState

/-- The diagnostics a whole-program run hands to the error sink. -/
def programErrors (prog : List Statement) : List (Nat × String) :=
  (check_program prog).1.errors

/-- The exceptional outcome (if any) of a whole-program run. -/
def programOutcome (prog : List Statement) : Option PyErr :=
  match (check_program prog).2 with
  | .error err => some err
  | .ok _ => none

/-- The `check_type` attribute of the node a successful expression
visit returns (`none` when the visit raised). -/
def resultCT (r : CheckerState × Except PyErr Expr) :
    Option (Option (Option ExprType)) :=
  match r.2 with
  | .ok e => some e.check_type
  | .error _ => none

/-- The program `a = 3; var a int;` (use before declaration). -/
def progC2 : List Statement :=
  [.assign 1 ⟨1, "a", none⟩ (.literal 1 (.int 3) none),
   .varDecl ⟨2, "a", ⟨2, "int", none⟩, none, none⟩]

/-- The program `var a int = 2; var b float = 3.14; var d int = a + b;`. -/
def progC3a : List Statement :=
  [.varDecl ⟨1, "a", ⟨1, "int", none⟩, some (.literal 1 (.int 2) none), none⟩,
   .varDecl ⟨2, "b", ⟨2, "float", none⟩,
     some (.literal 2 (.float 3.14) none), none⟩,
   .varDecl ⟨3, "d", ⟨3, "int", none⟩,
     some (.binop 3 "+" (.loadLocation 3 ⟨3, "a", none⟩ none)
                        (.loadLocation 3 ⟨3, "b", none⟩ none) none), none⟩]

/-- The program `var b float = 3.14; var e int = b + 4.5;` (declared
type `int` differing from the initializer's type `float`). -/
def progC3b : List Statement :=
  [.varDecl ⟨1, "b", ⟨1, "float", none⟩,
     some (.literal 1 (.float 3.14) none), none⟩,
   .varDecl ⟨2, "e", ⟨2, "int", none⟩,
     some (.binop 2 "+" (.loadLocation 2 ⟨2, "b", none⟩ none)
                        (.literal 2 (.float 4.5) none) none), none⟩]

/-- The program `const x = 1; x = 2;`. -/
def progC8 : List Statement :=
  [.constDecl ⟨1, "x", .literal 1 (.int 1) none, none⟩,
   .assign 2 ⟨2, "x", none⟩ (.literal 2 (.int 2) none)]

/-- A program whose first statement binds `k` to a constant whose
initializer is a `Literal` of unrecognized value kind (so the
declaration's attached type is `None`), and whose second statement
reads `k` through a `LoadLocation`. -/
def progC10 : List Statement :=
  [.constDecl ⟨1, "k", .literal 1 (.other "complex") none, none⟩,
   .assign 2 ⟨2, "x", none⟩ (.loadLocation 2 ⟨2, "k", none⟩ none)]

/-- The state after checking `progC10`'s first statement alone. -/
def stateAfterConstK : CheckerState :=
  (visit_Program [.constDecl ⟨1, "k", .literal 1 (.other "complex") none,
    none⟩] initState).1

/-- The state after checking `const x = 1;` alone. -/
def stateAfterConstX : CheckerState :=
  (visit_Program [.constDecl ⟨1, "x", .literal 1 (.int 1) none, none⟩]
    initState).1

/-! ## Helper lemmas about the symbol table -/

theorem SymbolTable.lookup_add_self (tab : SymbolTable) (n : String)
    (e : Entry) : (tab.add n e).lookup n = some e := by
  simp [SymbolTable.add, SymbolTable.lookup]

theorem SymbolTable.lookup_add_ne (tab : SymbolTable) (n m : String)
    (e : Entry) (h : n ≠ m) : (tab.add n e).lookup m = tab.lookup m := by
  simp [SymbolTable.add, SymbolTable.lookup, List.find?, h]

/-! ## Claim theorems -/

/-- C1.  The claim states that visiting a `Location` whose name is
unbound reports "name not found" and continues without raising.  The
code does report the diagnostic, but then unconditionally executes
`node.check_type = sym.check_type` with `sym = None`, which raises
`AttributeError`: the pass aborts on this semantic error instead of
degrading gracefully.  This theorem evaluates the embedded
`visit_Location` at such an input. -/
theorem C1_unbound_location_raises :
    visit_Location ⟨1, "zz", none⟩ initState =
      (initState.addError 1 ("name " ++ pyq "zz" ++ " not found"),
       .error (.attributeError "check_type")) := rfl

/-- C2 (counterexample).  The claim states that checking
`a = 3; var a int;` reports exactly one "not defined" error and no
other diagnostics; in fact the run produces two diagnostics. -/
theorem C2_two_diagnostics : (programErrors progC2).length = 2 := rfl

/-- C2 (amended).  Checking `a = 3; var a int;` reports the
"not defined" error for the assignment and, additionally, a
redefinition error for the declaration, because `visit_Program` binds
the assignment's target name in the symbol table after visiting the
assignment statement. -/
theorem C2_use_before_declaration :
    programErrors progC2 =
      [(1, "name " ++ pyq "a" ++ " not defined"),
       (2, "Attempted to redefine var " ++ pyq "a" ++ ", not allowed")] := rfl

/-- C3.  Checking `var a int = 2; var b float = 3.14; var d int = a + b;`
does report exactly one "matching LHS/RHS types" error (from the
binary operator), but checking `var b float = 3.14; var e int = b + 4.5;`
reports no error at all: `visit_VarDeclaration` never compares the
declared type with the initializer expression's type, contradicting
both the claim and the module's own docstring
(`var e int = b + 4.5;  // Error.  int = float`). -/
theorem C3_no_declared_vs_initializer_check :
    programErrors progC3a =
      [(3, "Binary operator + does not have matching LHS/RHS types")] ∧
    programErrors progC3b = [] := ⟨rfl, rfl⟩

/-- C4 (counterexample).  The claim states that a `Literal` of
unrecognized value kind is left without a `check_type` attribute.  In
fact `visit_Literal` always executes `node.check_type = check_type`,
attaching the attribute with value `None`: the visit of such a literal
yields a node whose attribute is present (`some none`), not absent
(`some none ≠ none` under `resultCT`). -/
theorem C4_attribute_is_attached :
    resultCT (visitExpr (.literal 1 (.other "complex") none) initState) =
      some (some none) ∧
    (visitExpr (.literal 1 (.other "complex") none) initState).1.errors =
      [(1, "Using unrecognized type <class \x27complex\x27>")] := ⟨rfl, rfl⟩

/-- C4 (amended).  For every `Literal` node whose value kind is outside
the fixed `typemap`, visiting it reports the "unrecognized type" error
and sets the node's `check_type` attribute to `None` (the attribute is
present but holds no type), so downstream attribute-presence checks see
the attribute as present. -/
theorem C4_unrecognized_literal (ln : Nat) (v : PyVal)
    (ct₀ : Option (Option ExprType)) (st : CheckerState)
    (h : typemap v = none) :
    visitExpr (.literal ln v ct₀) st =
      (st.addError ln ("Using unrecognized type " ++ pyTypeRepr v),
       .ok (.literal ln v (some none))) := by
  simp [visitExpr, h]

/-- C4 (witness): the amended theorem applied to a `complex` literal. -/
theorem C4_unrecognized_literal_witness :
    typemap (.other "complex") = none ∧
    visitExpr (.literal 1 (.other "complex") none) initState =
      (initState.addError 1
        ("Using unrecognized type " ++ pyTypeRepr (.other "complex")),
       .ok (.literal 1 (.other "complex") (some none))) :=
  ⟨rfl, C4_unrecognized_literal 1 (.other "complex") none initState rfl⟩

/-- C10.  Reachability of the `valtype` crash: running the pass on a
program that declares a constant with an unrecognized-kind literal
initializer (so the declaration's attached type is `None`) and then
reads it through a `LoadLocation` raises `NameError` on the unbound
local `valtype` instead of reporting through the error sink — the two
diagnostics reported before the crash are the only ones, and visiting
the `LoadLocation` itself from the post-declaration state raises
without reporting anything. -/
theorem C10_valtype_crash_reachable :
    programOutcome progC10 = some (.nameError "valtype") ∧
    programErrors progC10 =
      [(1, "Using unrecognized type <class \x27complex\x27>"),
       (2, "name " ++ pyq "x" ++ " not defined")] ∧
    visitExpr (.loadLocation 2 ⟨2, "k", none⟩ none) stateAfterConstK =
      (stateAfterConstK, .error (.nameError "valtype")) :=
  ⟨rfl, rfl, rfl⟩

/-- C5.  For a `Relop` node whose two operands, once visited, both
carry inferred types: on a type mismatch the node's propagated type is
the left operand's type (not boolean, and the mismatch is reported);
when the types agree but the operator is not in the type's
relational-operator set, the error is reported and the node's resulting
type is `BoolType`. -/
theorem C5_relop_result_types (ln : Nat) (op : String) (l r : Expr)
    (ct₀ : Option (Option ExprType)) (st st₁ st₂ : CheckerState)
    (l' r' : Expr) (tl tr : ExprType)
    (hvl : visitExpr l st = (st₁, .ok l'))
    (hvr : visitExpr r st₁ = (st₂, .ok r'))
    (hl : l'.check_type = some (some tl))
    (hr : r'.check_type = some (some tr)) :
    (tl ≠ tr →
      visitExpr (.relop ln op l r ct₀) st =
        (st₂.addError ln
          ("Relational operator " ++ op ++
           " does not have matching LHS/RHS types"),
         .ok (.relop ln op l' r' (some (some tl))))) ∧
    (tl = tr → op ∉ tl.rel_ops →
      visitExpr (.relop ln op l r ct₀) st =
        (st₂.addError ln
          ("Relational operator " ++ op ++ " not supported on " ++ "RHS" ++
           " of expression"),
         .ok (.relop ln op l' r' (some (some BoolType))))) := by
  constructor
  · intro hne
    simp [visitExpr, hvl, hvr, check_type_rel, hl, hr, hne]
  · rintro rfl hop
    simp [visitExpr, hvl, hvr, check_type_rel, hl, hr, hop]

/-- C5 (witness): `2 < 0.0` propagates `int` (the left type), and
`2 @@ 3` with the unsupported operator `@@` reports and yields `bool`. -/
theorem C5_relop_result_types_witness :
    visitExpr (.relop 1 "<" (.literal 1 (.int 2) none)
        (.literal 1 (.float 0) none) none) initState =
      (initState.addError 1
        ("Relational operator " ++ "<" ++
         " does not have matching LHS/RHS types"),
       .ok (.relop 1 "<" (.literal 1 (.int 2) (some (some IntType)))
         (.literal 1 (.float 0) (some (some FloatType)))
         (some (some IntType)))) ∧
    visitExpr (.relop 1 "@@" (.literal 1 (.int 2) none)
        (.literal 1 (.int 3) none) none) initState =
      (initState.addError 1
        ("Relational operator " ++ "@@" ++ " not supported on " ++ "RHS" ++
         " of expression"),
       .ok (.relop 1 "@@" (.literal 1 (.int 2) (some (some IntType)))
         (.literal 1 (.int 3) (some (some IntType)))
         (some (some BoolType)))) :=
  ⟨(C5_relop_result_types 1 "<" (.literal 1 (.int 2) none)
      (.literal 1 (.float 0) none) none initState initState initState
      (.literal 1 (.int 2) (some (some IntType)))
      (.literal 1 (.float 0) (some (some FloatType)))
      IntType FloatType rfl rfl rfl rfl).1 (by decide),
   (C5_relop_result_types 1 "@@" (.literal 1 (.int 2) none)
      (.literal 1 (.int 3) none) none initState initState initState
      (.literal 1 (.int 2) (some (some IntType)))
      (.literal 1 (.int 3) (some (some IntType)))
      IntType IntType rfl rfl rfl rfl).2 rfl (by decide)⟩

/-- C6.  For a `Binop` node whose two operands, once visited, carry the
same inferred type, with the operator absent from that type's
binary-operator set (hence from both the left and the right operand's
set): exactly one error is appended, it names the RHS (the RHS check
overwrites the LHS marker), and the node's resulting type is the left
operand's type despite the error. -/
theorem C6_binop_rhs_tiebreak (ln : Nat) (op : String) (l r : Expr)
    (ct₀ : Option (Option ExprType)) (st st₁ st₂ : CheckerState)
    (l' r' : Expr) (t : ExprType)
    (hvl : visitExpr l st = (st₁, .ok l'))
    (hvr : visitExpr r st₁ = (st₂, .ok r'))
    (hl : l'.check_type = some (some t))
    (hr : r'.check_type = some (some t))
    (hop : op ∉ t.binary_ops) :
    visitExpr (.binop ln op l r ct₀) st =
      (st₂.addError ln
        ("Binary operator " ++ op ++ " not supported on " ++ "RHS" ++
         " of expression"),
       .ok (.binop ln op l' r' (some (some t)))) := by
  simp [visitExpr, hvl, hvr, check_type_binary, hl, hr, hop]

/-- C6 (witness): `"Hello" * "World"` — `*` is supported by neither
side's type (`string`); one RHS error, result type `string`. -/
theorem C6_binop_rhs_tiebreak_witness :
    visitExpr (.binop 1 "*" (.literal 1 (.str "Hello") none)
        (.literal 1 (.str "World") none) none) initState =
      (initState.addError 1
        ("Binary operator " ++ "*" ++ " not supported on " ++ "RHS" ++
         " of expression"),
       .ok (.binop 1 "*" (.literal 1 (.str "Hello") (some (some StringType)))
         (.literal 1 (.str "World") (some (some StringType)))
         (some (some StringType)))) :=
  C6_binop_rhs_tiebreak 1 "*" (.literal 1 (.str "Hello") none)
    (.literal 1 (.str "World") none) none initState initState initState
    (.literal 1 (.str "Hello") (some (some StringType)))
    (.literal 1 (.str "World") (some (some StringType)))
    StringType rfl rfl rfl rfl (by decide)

/-- C7.  Redeclaration handling is asymmetric.  Constant declaration of
an already-bound name: the redefinition error is reported and the name
is nevertheless rebound to the new declaration node (overwrite; the
final table resolves the name to the updated new node).  Variable
declaration of an already-bound name: the redefinition error is
reported and the method returns at once, leaving the symbol table — and
hence the prior binding and its type — unchanged. -/
theorem C7_redeclaration_asymmetry :
    (∀ (node : ConstDeclaration) (st : CheckerState) (entry : Entry)
       (st₁ : CheckerState) (e' : Expr) (v : Option ExprType),
       st.symtab.lookup node.name = some entry →
       visitExpr node.expr
         ⟨st.symtab.add node.name (.const node),
          st.errors ++
            [(node.lineno,
              "Attempted to redefine const " ++ pyq node.name ++
              ", not allowed")]⟩ = (st₁, .ok e') →
       e'.check_type = some v →
       visit_ConstDeclaration node st =
         ({ st₁ with
            symtab := st₁.symtab.add node.name
              (.const { node with expr := e', check_type := some v }) },
          .ok { node with expr := e', check_type := some v }) ∧
       (st₁.symtab.add node.name
           (.const { node with expr := e', check_type := some v })).lookup
         node.name =
         some (.const { node with expr := e', check_type := some v })) ∧
    (∀ (node : VarDeclaration) (st : CheckerState) (entry : Entry),
       st.symtab.lookup node.name = some entry →
       visit_VarDeclaration node st =
         (st.addError node.lineno
           ("Attempted to redefine var " ++ pyq node.name ++ ", not allowed"),
          .ok node)) := by
  constructor
  · intro node st entry st₁ e' v h hv hct
    refine ⟨?_, SymbolTable.lookup_add_self _ _ _⟩
    simp [visit_ConstDeclaration, CheckerState.addError, h, hv, hct]
  · intro node st entry h
    simp [visit_VarDeclaration, h]

/-- C7 (witness): redeclaring the already-bound name `int`, once as a
constant (error, yet rebound to the new declaration) and once as a
variable (error, table unchanged). -/
theorem C7_redeclaration_asymmetry_witness :
    (visit_ConstDeclaration ⟨2, "int", .literal 2 (.int 1) none, none⟩
        initState =
      ({ symtab :=
           (initState.symtab.add "int"
               (.const ⟨2, "int", .literal 2 (.int 1) none, none⟩)).add
             "int"
             (.const ⟨2, "int", .literal 2 (.int 1) (some (some IntType)),
               some (some IntType)⟩),
         errors :=
           initState.errors ++
             [(2,
               "Attempted to redefine const " ++ pyq "int" ++
                 ", not allowed")] },
       .ok ⟨2, "int", .literal 2 (.int 1) (some (some IntType)),
         some (some IntType)⟩) ∧
     ((initState.symtab.add "int"
           (.const ⟨2, "int", .literal 2 (.int 1) none, none⟩)).add "int"
         (.const ⟨2, "int", .literal 2 (.int 1) (some (some IntType)),
           some (some IntType)⟩)).lookup "int" =
       some (.const ⟨2, "int", .literal 2 (.int 1) (some (some IntType)),
         some (some IntType)⟩)) ∧
    visit_VarDeclaration ⟨2, "int", ⟨2, "int", none⟩, none, none⟩ initState =
      (initState.addError 2
        ("Attempted to redefine var " ++ pyq "int" ++ ", not allowed"),
       .ok ⟨2, "int", ⟨2, "int", none⟩, none, none⟩) :=
  ⟨C7_redeclaration_asymmetry.1 ⟨2, "int", .literal 2 (.int 1) none, none⟩
      initState (.ty IntType) _
      (.literal 2 (.int 1) (some (some IntType))) (some IntType)
      rfl rfl rfl,
   C7_redeclaration_asymmetry.2 ⟨2, "int", ⟨2, "int", none⟩, none, none⟩
     initState (.ty IntType) rfl⟩

/-- C8.  For every assignment statement whose target name resolves to a
constant declaration, the visit reports "cannot assign to constant"
after visiting the source expression and performs no further check
(the returned state carries exactly that one additional diagnostic);
and the whole program `const x = 1; x = 2;` yields exactly that one
error. -/
theorem C8_assign_to_constant :
    (∀ (ln : Nat) (loc : Location) (e : Expr) (st st₁ : CheckerState)
       (c : ConstDeclaration) (e' : Expr),
       st.symtab.lookup loc.name = some (.const c) →
       visitExpr e st = (st₁, .ok e') →
       visit_AssignmentStatement ln loc e st =
         (st₁.addError ln ("Cannot assign to constant " ++ c.name),
          .ok (loc, e'))) ∧
    programErrors progC8 = [(2, "Cannot assign to constant " ++ "x")] := by
  constructor
  · intro ln loc e st st₁ c e' h hv
    simp [visit_AssignmentStatement, h, hv]
  · rfl

/-- C8 (witness): assigning `2` to the constant `x` from the state in
which `const x = 1;` has been checked. -/
theorem C8_assign_to_constant_witness :
    visit_AssignmentStatement 2 ⟨2, "x", none⟩ (.literal 2 (.int 2) none)
        stateAfterConstX =
      (stateAfterConstX.addError 2 ("Cannot assign to constant " ++ "x"),
       .ok (⟨2, "x", none⟩, .literal 2 (.int 2) (some (some IntType)))) :=
  C8_assign_to_constant.1 2 ⟨2, "x", none⟩ (.literal 2 (.int 2) none)
    stateAfterConstX stateAfterConstX
    ⟨1, "x", .literal 1 (.int 1) (some (some IntType)), some (some IntType)⟩
    (.literal 2 (.int 2) (some (some IntType))) rfl rfl

/-- C9.  A variable declaration without an initializer, checked from a
state in which its name is fresh and its typename resolves to a type
`t`, ends up carrying a synthesized `Literal` initializer whose value
is `t`'s default value and whose attached type — like the
declaration's own — is `t`. -/
theorem C9_default_initializer (node : VarDeclaration) (st : CheckerState)
    (t : ExprType)
    (h1 : st.symtab.lookup node.name = none)
    (h2 : st.symtab.lookup node.typename.name = some (.ty t))
    (h3 : node.typename.name ≠ node.name)
    (h4 : node.expr = none) :
    ∃ st' node',
      visit_VarDeclaration node st = (st', .ok node') ∧
      node'.expr = some (.literal 0 t.defaultValue (some (some t))) ∧
      node'.check_type = some (some t) := by
  have hlook : (st.symtab.add node.name (.var node)).lookup
      node.typename.name = some (.ty t) := by
    rw [SymbolTable.lookup_add_ne _ _ _ _ (fun hh => h3 hh.symm)]
    exact h2
  refine
    ⟨{ st with
       symtab :=
         ((st.symtab.add node.name (.var node)).add node.name
             (.var
               { node with
                 typename :=
                   { node.typename with check_type := some (some t) },
                 check_type := some (some t) })).add node.name
           (.var
             { node with
               typename := { node.typename with check_type := some (some t) },
               check_type := some (some t),
               expr := some (.literal 0 t.defaultValue (some (some t))) }) },
     { node with
       typename := { node.typename with check_type := some (some t) },
       check_type := some (some t),
       expr := some (.literal 0 t.defaultValue (some (some t))) },
     ?_, rfl, rfl⟩
  simp [visit_VarDeclaration, h1, visit_Typename, hlook, h4]

/-- C9 (witness): `var a int;` checked from the initial state gets the
synthesized initializer `Literal(0)` of type `int`. -/
theorem C9_default_initializer_witness :
    ∃ st' node',
      visit_VarDeclaration ⟨1, "a", ⟨1, "int", none⟩, none, none⟩ initState =
        (st', .ok node') ∧
      node'.expr = some (.literal 0 IntType.defaultValue
        (some (some IntType))) ∧
      node'.check_type = some (some IntType) :=
  C9_default_initializer ⟨1, "a", ⟨1, "int", none⟩, none, none⟩ initState
    IntType rfl rfl (by decide) rfl
